import Mathlib

/-!
Shallow embedding of `src/public/app/plugins/datasource/influxdb/migrations.ts`
(the InfluxDB annotation-migration shim) and proofs about it.

JavaScript values are modelled by the inductive `JSValue`; objects are
association lists of string keys (first occurrence wins on lookup, as for
JS own-property access).  A property read `v.k` throws a TypeError exactly
when the base `v` is `null` or `undefined`, and otherwise yields the
property value (property access on a primitive boxes it and yields
`undefined` for keys the primitive does not have — all keys, in the
fragment modelled here).  Throwing is modelled with `Except Unit`.
-/

set_option autoImplicit false

namespace InfluxMigrations

/-- The JavaScript value domain needed by `migrations.ts`: `undefined`,
`null`, booleans, numbers (the file only ever handles integral `limit`
values, so `Int` suffices), strings, arrays and plain objects. -/
inductive JSValue : Type where
  | undefined : JSValue
  | null : JSValue
  | bool : Bool → JSValue
  | num : Int → JSValue
  | str : String → JSValue
  | arr : List JSValue → JSValue
  | obj : List (String × JSValue) → JSValue

/-- JS truthiness: `undefined`, `null`, `false`, `0` and `""` are falsy;
every other value (including every array and object) is truthy. -/
def truthy : JSValue → Bool
  | .undefined => false
  | .null => false
  | .bool b => b
  | .num n => n != 0
  | .str s => s != ""
  | .arr _ => true
  | .obj _ => true

/-- A value is nullish (`null` or `undefined`): the values on which a
property access throws and which `??` replaces by its right operand. -/
def isNullish : JSValue → Bool
  | .undefined => true
  | .null => true
  | _ => false

/-- First-occurrence lookup in an object's field list; `undefined` for a
missing key, as for a JS own-property read. -/
def lookupField : List (String × JSValue) → String → JSValue
  | [], _ => .undefined
  | (k, v) :: rest, key => if k = key then v else lookupField rest key

/-- Property read on a non-nullish base: object fields are looked up,
while primitives and arrays have none of the keys used by this file, so
the read yields `undefined`. -/
def getD : JSValue → String → JSValue
  | .obj fields, key => lookupField fields key
  | _, _ => .undefined

/-- A JS property read `v.k`: throws (TypeError) when `v` is nullish,
otherwise yields `getD v k`. -/
def getProp (v : JSValue) (k : String) : Except Unit JSValue :=
  if isNullish v then .error () else .ok (getD v k)

/-- The nullish-coalescing operator `v ?? d`. -/
def nullishD (v d : JSValue) : JSValue :=
  if isNullish v then d else v

/-- Replace the first occurrence of `key` (or append when absent), as a
JS property assignment on an object does. -/
def setField : List (String × JSValue) → String → JSValue → List (String × JSValue)
  | [], key, v => [(key, v)]
  | (k, w) :: rest, key, v =>
      if k = key then (key, v) :: rest else (k, w) :: setField rest key v

/-- A JS property assignment `v.k = w` in strict mode: succeeds on an
object, throws on every other receiver modelled here. -/
def setProp (v : JSValue) (k : String) (w : JSValue) : Except Unit JSValue :=
  match v with
  | .obj fields => .ok (.obj (setField fields k w))
  | _ => .error ()

/-- `migrateLegacyAnnotation` from `migrations.ts`: builds the new target
object.  Every flat field is read off `json` itself (throwing iff `json`
is nullish) and defaulted to `""` with `??`; `queryType` and
`fromAnnotations` are the literals `"tags"` and `true`; the four target
sub-fields come from `json.target` when it is truthy and are defaulted to
`0`, `false`, `[]`, `""` otherwise. -/
def migrateLegacyAnnotation (json : JSValue) : Except Unit JSValue :=
  match getProp json "query", getProp json "tagsColumn", getProp json "textColumn",
        getProp json "timeEndColumn", getProp json "titleColumn", getProp json "name",
        getProp json "target" with
  | .ok query, .ok tagsColumn, .ok textColumn, .ok timeEndColumn, .ok titleColumn,
    .ok name, .ok target =>
      .ok (.obj [
        ("query", nullishD query (.str "")),
        ("queryType", .str "tags"),
        ("fromAnnotations", .bool true),
        ("tagsColumn", nullishD tagsColumn (.str "")),
        ("textColumn", nullishD textColumn (.str "")),
        ("timeEndColumn", nullishD timeEndColumn (.str "")),
        ("titleColumn", nullishD titleColumn (.str "")),
        ("name", nullishD name (.str "")),
        ("limit", if truthy target then getD target "limit" else .num 0),
        ("matchAny", if truthy target then getD target "matchAny" else .bool false),
        ("tags", if truthy target then getD target "tags" else .arr []),
        ("type", if truthy target then getD target "type" else .str "")])
  | _, _, _, _, _, _, _ => .error ()

/-- `prepareAnnotation` from `migrations.ts`:
`json.target = json.target && !json.target?.query ? migrateLegacyAnnotation(json) : json.target; return json;`.
The condition `json.target && !json.target?.query` is truthy exactly when
`json.target` is truthy and `json.target.query` is falsy (the optional
chain cannot throw there, since a truthy value is not nullish). -/
def prepareAnnotation (json : JSValue) : Except Unit JSValue :=
  match getProp json "target" with
  | .error e => .error e
  | .ok target =>
      match (if truthy target then
               (if !truthy (getD target "query") then migrateLegacyAnnotation json
                else .ok target)
             else .ok target) with
      | .error e => .error e
      | .ok newTarget => setProp json "target" newTarget

/-- The code's migration guard, read off `prepareAnnotation`'s ternary:
migration runs iff `json.target` is truthy and `json.target?.query` is
falsy. -/
def migrationTriggered (json : JSValue) : Bool :=
  truthy (getD json "target") && !truthy (getD (getD json "target") "query")

/-! ### Association-list lemmas -/

@[simp]
theorem lookupField_setField_self (fs : List (String × JSValue)) (k : String) (v : JSValue) :
    lookupField (setField fs k v) k = v := by
  induction fs with
  | nil => simp [setField, lookupField]
  | cons p rest ih =>
      obtain ⟨k', w⟩ := p
      by_cases h : k' = k <;> simp [setField, lookupField, h, ih]

theorem lookupField_setField_ne (fs : List (String × JSValue)) (k k' : String) (v : JSValue)
    (h : k' ≠ k) : lookupField (setField fs k v) k' = lookupField fs k' := by
  induction fs with
  | nil => simp [setField, lookupField, Ne.symm h]
  | cons p rest ih =>
      obtain ⟨k₀, w⟩ := p
      by_cases h₀ : k₀ = k
      · subst h₀
        simp [setField, lookupField, Ne.symm h]
      · simp [setField, lookupField, h₀, ih]

theorem setField_lookup_self (fs : List (String × JSValue)) (k : String)
    (h : lookupField fs k ≠ .undefined) : setField fs k (lookupField fs k) = fs := by
  induction fs with
  | nil => simp [lookupField] at h
  | cons p rest ih =>
      obtain ⟨k₀, w⟩ := p
      by_cases h₀ : k₀ = k
      · subst h₀
        simp [setField, lookupField]
      · simp only [lookupField, if_neg h₀] at h
        simp [setField, lookupField, h₀, ih h]

theorem setField_setField (fs : List (String × JSValue)) (k : String) (v w : JSValue) :
    setField (setField fs k v) k w = setField fs k w := by
  induction fs with
  | nil => simp [setField]
  | cons p rest ih =>
      obtain ⟨k₀, u⟩ := p
      by_cases h₀ : k₀ = k <;> simp [setField, h₀, ih]

@[simp]
theorem getProp_obj (fs : List (String × JSValue)) (k : String) :
    getProp (.obj fs) k = .ok (lookupField fs k) := by
  simp [getProp, isNullish, getD]

/-- On an object input, `migrateLegacyAnnotation` never throws and builds
exactly the record literal from the source, with each flat field looked
up on the record and each sub-field on its `target`. -/
theorem migrateLegacyAnnotation_obj (fs : List (String × JSValue)) :
    migrateLegacyAnnotation (.obj fs) =
      .ok (.obj [
        ("query", nullishD (lookupField fs "query") (.str "")),
        ("queryType", .str "tags"),
        ("fromAnnotations", .bool true),
        ("tagsColumn", nullishD (lookupField fs "tagsColumn") (.str "")),
        ("textColumn", nullishD (lookupField fs "textColumn") (.str "")),
        ("timeEndColumn", nullishD (lookupField fs "timeEndColumn") (.str "")),
        ("titleColumn", nullishD (lookupField fs "titleColumn") (.str "")),
        ("name", nullishD (lookupField fs "name") (.str "")),
        ("limit", if truthy (lookupField fs "target") then getD (lookupField fs "target") "limit" else .num 0),
        ("matchAny", if truthy (lookupField fs "target") then getD (lookupField fs "target") "matchAny" else .bool false),
        ("tags", if truthy (lookupField fs "target") then getD (lookupField fs "target") "tags" else .arr []),
        ("type", if truthy (lookupField fs "target") then getD (lookupField fs "target") "type" else .str "")]) := by
  simp [ migrateLegacyAnnotation, getD]

/-- On an object input, `prepareAnnotation` never throws: it writes back
either the migrated target (guard true) or the existing target value. -/
theorem prepareAnnotation_obj (fs : List (String × JSValue)) :
    prepareAnnotation (.obj fs) =
      .ok (.obj (setField fs "target"
        (if truthy (lookupField fs "target") && !truthy (getD (lookupField fs "target") "query")
         then (.obj [
            ("query", nullishD (lookupField fs "query") (.str "")),
            ("queryType", .str "tags"),
            ("fromAnnotations", .bool true),
            ("tagsColumn", nullishD (lookupField fs "tagsColumn") (.str "")),
            ("textColumn", nullishD (lookupField fs "textColumn") (.str "")),
            ("timeEndColumn", nullishD (lookupField fs "timeEndColumn") (.str "")),
            ("titleColumn", nullishD (lookupField fs "titleColumn") (.str "")),
            ("name", nullishD (lookupField fs "name") (.str "")),
            ("limit", if truthy (lookupField fs "target") then getD (lookupField fs "target") "limit" else .num 0),
            ("matchAny", if truthy (lookupField fs "target") then getD (lookupField fs "target") "matchAny" else .bool false),
            ("tags", if truthy (lookupField fs "target") then getD (lookupField fs "target") "tags" else .arr []),
            ("type", if truthy (lookupField fs "target") then getD (lookupField fs "target") "type" else .str "")])
         else lookupField fs "target"))) := by
  by_cases hT : truthy (lookupField fs "target")
  · by_cases hQ : truthy (getD (lookupField fs "target") "query")
    · simp [ prepareAnnotation, hT, hQ, setProp]
    · simp [ prepareAnnotation, hT, hQ, setProp, migrateLegacyAnnotation_obj fs]
  · simp [ prepareAnnotation, hT, setProp]

/-! ### Claim theorems -/

/-- C1: the claimed decision rule is wrong on the code.  On the Scenario-A
input `{ query: "foo", tagsColumn: "t" }` (target absent), the claim says
migration triggers and `target` is replaced by a freshly built record;
the code's guard `json.target && !json.target?.query` is falsy when
`target` is absent, so `prepareAnnotation` performs no migration and
merely writes the undefined `target` back. -/
theorem prepareAnnotation_absent_target_unmigrated :
    prepareAnnotation (.obj [("query", .str "foo"), ("tagsColumn", .str "t")]) =
      .ok (.obj [("query", .str "foo"), ("tagsColumn", .str "t"), ("target", .undefined)]) := rfl

/-- C2: on the Scenario-D input `{}` (target absent), the claim says the
output `target` is a fully defaulted CurrentAnnotationRecord; the code
instead leaves `target` undefined, because its guard requires a truthy
`json.target` before it ever calls `migrateLegacyAnnotation`. -/
theorem prepareAnnotation_empty_record_unmigrated :
    prepareAnnotation (.obj []) = .ok (.obj [("target", .undefined)]) := rfl

/-- C3: the claimed invariant (output `target` always present with every
CurrentAnnotationRecord field populated) fails on the code: for the input
`{ target: null }` the guard is falsy, so the output `target` is still
`null`, not a populated record. -/
theorem prepareAnnotation_null_target_invariant_violated :
    prepareAnnotation (.obj [("target", .null)]) = .ok (.obj [("target", .null)]) := rfl

/-- C4: whenever `record.target` is truthy and `record.target.query` is
falsy, migration triggers: the four sub-fields `limit`, `matchAny`,
`tags`, `type` are read off the existing target, and the flat fields are
read off the top-level record, each defaulted to `""` with `??`. -/
theorem prepareAnnotation_falsy_query_migrates (fs : List (String × JSValue))
    (hT : truthy (lookupField fs "target") = true)
    (hQ : truthy (getD (lookupField fs "target") "query") = false) :
    prepareAnnotation (.obj fs) =
      .ok (.obj (setField fs "target" (.obj [
        ("query", nullishD (lookupField fs "query") (.str "")),
        ("queryType", .str "tags"),
        ("fromAnnotations", .bool true),
        ("tagsColumn", nullishD (lookupField fs "tagsColumn") (.str "")),
        ("textColumn", nullishD (lookupField fs "textColumn") (.str "")),
        ("timeEndColumn", nullishD (lookupField fs "timeEndColumn") (.str "")),
        ("titleColumn", nullishD (lookupField fs "titleColumn") (.str "")),
        ("name", nullishD (lookupField fs "name") (.str "")),
        ("limit", getD (lookupField fs "target") "limit"),
        ("matchAny", getD (lookupField fs "target") "matchAny"),
        ("tags", getD (lookupField fs "target") "tags"),
        ("type", getD (lookupField fs "target") "type")]))) := by
  rw [ prepareAnnotation_obj fs]
  simp [hT, hQ]

/-- Witness for C4: Scenario C, `{ name: "n1", target: { limit: 5,
matchAny: true, tags: ["a","b"], type: "tags" } }` with `target.query`
absent, migrates as the theorem states. -/
theorem prepareAnnotation_falsy_query_migrates_witness :
    prepareAnnotation (.obj [("name", .str "n1"),
        ("target", .obj [("limit", .num 5), ("matchAny", .bool true),
          ("tags", .arr [.str "a", .str "b"]), ("type", .str "tags")])]) =
      .ok (.obj [("name", .str "n1"),
        ("target", .obj [
          ("query", .str ""),
          ("queryType", .str "tags"),
          ("fromAnnotations", .bool true),
          ("tagsColumn", .str ""),
          ("textColumn", .str ""),
          ("timeEndColumn", .str ""),
          ("titleColumn", .str ""),
          ("name", .str "n1"),
          ("limit", .num 5),
          ("matchAny", .bool true),
          ("tags", .arr [.str "a", .str "b"]),
          ("type", .str "tags")])]) :=
  prepareAnnotation_falsy_query_migrates
    [("name", .str "n1"),
     ("target", .obj [("limit", .num 5), ("matchAny", .bool true),
       ("tags", .arr [.str "a", .str "b"]), ("type", .str "tags")])]
    (by decide) (by decide)

/-- C5: whenever `record.target.query` is truthy, `prepareAnnotation`
returns the record unchanged — the guard is falsy, the existing target
value is written back over itself, and every field keeps its value. -/
theorem prepareAnnotation_truthy_query_unchanged (fs : List (String × JSValue))
    (hQ : truthy (getD (lookupField fs "target") "query") = true) :
    prepareAnnotation (.obj fs) = .ok (.obj fs) := by
  have hne : lookupField fs "target" ≠ .undefined := by
    intro h
    rw [h] at hQ
    simp [getD, truthy] at hQ
  rw [ prepareAnnotation_obj fs, hQ]
  simp [setField_lookup_self fs "target" hne]

/-- Witness for C5: Scenario B, `{ target: { query: "host=$host" } }` is
returned unchanged. -/
theorem prepareAnnotation_truthy_query_unchanged_witness :
    prepareAnnotation (.obj [("target", .obj [("query", .str "host=$host")])]) =
      .ok (.obj [("target", .obj [("query", .str "host=$host")])]) :=
  prepareAnnotation_truthy_query_unchanged
    [("target", .obj [("query", .str "host=$host")])] (by decide)

/-- C6: whenever migration is triggered (target truthy, `target.query`
falsy), the new target's `queryType` is the literal `"tags"` and its
`fromAnnotations` is `true`, whatever values the legacy record or its old
target carried for those fields. -/
theorem prepareAnnotation_migration_forces_literals (fs : List (String × JSValue))
    (hT : truthy (lookupField fs "target") = true)
    (hQ : truthy (getD (lookupField fs "target") "query") = false) :
    ( prepareAnnotation (.obj fs)).map (fun r => getD (getD r "target") "queryType") =
        .ok (.str "tags") ∧
      ( prepareAnnotation (.obj fs)).map (fun r => getD (getD r "target") "fromAnnotations") =
        .ok (.bool true) := by
  rw [ prepareAnnotation_obj fs, hT, hQ]
  simp [Except.map, getD, lookupField]

/-- Witness for C6: a legacy record carrying conflicting `queryType` and
`fromAnnotations` values at both levels still gets the forced literals. -/
theorem prepareAnnotation_migration_forces_literals_witness :
    ( prepareAnnotation (.obj [("queryType", .str "old"), ("fromAnnotations", .bool false),
          ("target", .obj [("queryType", .str "older"), ("fromAnnotations", .bool false)])])).map
        (fun r => getD (getD r "target") "queryType") = .ok (.str "tags") ∧
      ( prepareAnnotation (.obj [("queryType", .str "old"), ("fromAnnotations", .bool false),
          ("target", .obj [("queryType", .str "older"), ("fromAnnotations", .bool false)])])).map
        (fun r => getD (getD r "target") "fromAnnotations") = .ok (.bool true) :=
  prepareAnnotation_migration_forces_literals
    [("queryType", .str "old"), ("fromAnnotations", .bool false),
     ("target", .obj [("queryType", .str "older"), ("fromAnnotations", .bool false)])]
    (by decide) (by decide)

/-- C7: `prepareAnnotation` only ever writes the `target` field: every
other top-level field of the record keeps its value, whether or not
migration was triggered. -/
theorem prepareAnnotation_frame (fs : List (String × JSValue)) (k : String)
    (hk : k ≠ "target") :
    ( prepareAnnotation (.obj fs)).map (fun r => getD r k) = .ok (lookupField fs k) := by
  rw [ prepareAnnotation_obj fs]
  simp [Except.map, getD, lookupField_setField_ne fs "target" k _ hk]

/-- Witness for C7: the `name` field of a record that does get migrated is
untouched. -/
theorem prepareAnnotation_frame_witness :
    ( prepareAnnotation (.obj [("name", .str "n1"), ("target", .obj [("limit", .num 5)])])).map
        (fun r => getD r "name") =
      .ok (lookupField [("name", .str "n1"), ("target", .obj [("limit", .num 5)])] "name") :=
  prepareAnnotation_frame [("name", .str "n1"), ("target", .obj [("limit", .num 5)])]
    "name" (by decide)

/-- C9: `prepareAnnotation` is total on object-like records: it never
throws and always returns a record, whatever the fields hold. -/
theorem prepareAnnotation_total_on_objects (fs : List (String × JSValue)) :
    ∃ r, prepareAnnotation (.obj fs) = .ok r :=
  ⟨_, prepareAnnotation_obj fs⟩

/-- C10: the defaulting of `limit`, `matchAny`, `tags` and `type` looks
only at the truthiness of `record.target` as a whole: when `target` is
truthy and `target.query` is falsy, each sub-field of the new target is
whatever a property read on the old target yields — `undefined` when the
old target lacks the key (e.g. a truthy non-object), never the defaults
`0`, `false`, `[]`, `""`. -/
theorem prepareAnnotation_subfields_read_off_target (fs : List (String × JSValue))
    (hT : truthy (lookupField fs "target") = true)
    (hQ : truthy (getD (lookupField fs "target") "query") = false) :
    ( prepareAnnotation (.obj fs)).map (fun r => getD (getD r "target") "limit") =
        .ok (getD (lookupField fs "target") "limit") ∧
      ( prepareAnnotation (.obj fs)).map (fun r => getD (getD r "target") "matchAny") =
        .ok (getD (lookupField fs "target") "matchAny") ∧
      ( prepareAnnotation (.obj fs)).map (fun r => getD (getD r "target") "tags") =
        .ok (getD (lookupField fs "target") "tags") ∧
      ( prepareAnnotation (.obj fs)).map (fun r => getD (getD r "target") "type") =
        .ok (getD (lookupField fs "target") "type") := by
  rw [ prepareAnnotation_obj fs, hT, hQ]
  simp [Except.map, getD, lookupField]

/-- Witness for C10: with `target = 5` (truthy non-object, falsy query),
migration runs and all four sub-fields of the new target are `undefined`
rather than the documented defaults. -/
theorem prepareAnnotation_subfields_read_off_target_witness :
    ( prepareAnnotation (.obj [("target", .num 5)])).map
        (fun r => getD (getD r "target") "limit") = .ok .undefined ∧
      ( prepareAnnotation (.obj [("target", .num 5)])).map
        (fun r => getD (getD r "target") "matchAny") = .ok .undefined ∧
      ( prepareAnnotation (.obj [("target", .num 5)])).map
        (fun r => getD (getD r "target") "tags") = .ok .undefined ∧
      ( prepareAnnotation (.obj [("target", .num 5)])).map
        (fun r => getD (getD r "target") "type") = .ok .undefined :=
  prepareAnnotation_subfields_read_off_target [("target", .num 5)] (by decide) (by decide)

/-- C8 counterexample: on the concrete record
`{ target: { limit: 5, matchAny: true, tags: [], type: "t" } }` — squarely
in the claim's domain: migration triggers and leaves `target.query = ""` —
applying `prepareAnnotation` twice yields exactly the same record value as
applying it once, so "applying the migrator twice is not the same as
applying it once" is false here. -/
theorem prepareAnnotation_twice_eq_once_counterexample :
    migrationTriggered (.obj [("target", .obj [("limit", .num 5), ("matchAny", .bool true),
        ("tags", .arr []), ("type", .str "t")])]) = true ∧
    ( prepareAnnotation (.obj [("target", .obj [("limit", .num 5), ("matchAny", .bool true),
        ("tags", .arr []), ("type", .str "t")])])).map
        (fun r => getD (getD r "target") "query") = .ok (.str "") ∧
    ( prepareAnnotation (.obj [("target", .obj [("limit", .num 5), ("matchAny", .bool true),
          ("tags", .arr []), ("type", .str "t")])]) >>= prepareAnnotation) =
      prepareAnnotation (.obj [("target", .obj [("limit", .num 5), ("matchAny", .bool true),
          ("tags", .arr []), ("type", .str "t")])]) :=
  ⟨rfl, rfl, rfl⟩

/-- C8 amended: on a record that migrates (target truthy, `target.query`
falsy) and whose top-level `query` defaults to a falsy value, a second
application of `prepareAnnotation` does re-trigger migration — the guard
holds again on the output because the new `target.query` is falsy — but
the re-built target is value-equal to the existing one, so applying the
migrator twice produces the same record value as applying it once. -/
theorem prepareAnnotation_retriggers_but_value_idempotent (fs : List (String × JSValue))
    (hT : truthy (lookupField fs "target") = true)
    (hQ : truthy (getD (lookupField fs "target") "query") = false)
    (hq : truthy (nullishD (lookupField fs "query") (.str "")) = false) :
    ( prepareAnnotation (.obj fs)).map migrationTriggered = .ok true ∧
      ( prepareAnnotation (.obj fs) >>= prepareAnnotation) = prepareAnnotation (.obj fs) := by
  rw [ prepareAnnotation_obj fs, hT, hQ]
  simp only [Bool.not_false, Bool.and_self, if_true, Except.map, Bind.bind, Except.bind]
  constructor
  · simp only [migrationTriggered]
    simp [getD, lookupField, hq]
    rfl
  · rw [ prepareAnnotation_obj]
    simp only [getD, lookupField_setField_self, lookupField, reduceIte]
    rw [hq]
    simp [truthy, getD, lookupField, lookupField_setField_ne, setField_setField]

/-- Witness for the amended C8: the counterexample record satisfies the
hypotheses, re-triggers migration, and is a value-level fixed point. -/
theorem prepareAnnotation_retriggers_but_value_idempotent_witness :
    ( prepareAnnotation (.obj [("target", .obj [("limit", .num 5), ("matchAny", .bool false),
          ("tags", .arr [.str "a"]), ("type", .str "x")])])).map migrationTriggered =
        .ok true ∧
      ( prepareAnnotation (.obj [("target", .obj [("limit", .num 5), ("matchAny", .bool false),
            ("tags", .arr [.str "a"]), ("type", .str "x")])]) >>= prepareAnnotation) =
        prepareAnnotation (.obj [("target", .obj [("limit", .num 5), ("matchAny", .bool false),
            ("tags", .arr [.str "a"]), ("type", .str "x")])]) :=
  prepareAnnotation_retriggers_but_value_idempotent
    [("target", .obj [("limit", .num 5), ("matchAny", .bool false),
      ("tags", .arr [.str "a"]), ("type", .str "x")])]
    (by decide) (by decide) (by decide)

end InfluxMigrations
